import Mathlib

/-!
Shallow embedding of `confluent_kafka/avro/serializer/message_serializer.py`
(class `MessageSerializer`).

Modelling conventions:
* Bytes are `Nat` values (`< 256` where it matters); byte strings are `List Nat`.
* The mutable serializer object becomes an explicit state `SState` threaded
  through each operation; each operation also returns the list of observable
  registry/probe events (`REvent`) it performed, so that claims about "number
  of registry calls" are statable.
* The external collaborators (avro encoding engine, fastavro, schema registry)
  are opaque parameters: `Engine` bundles `avro.io.DatumWriter.write`,
  `avro.io.DatumReader.read`, `fastavro.schemaless_reader`, `Schema.to_json`
  and the schema name/namespace attributes; `Registry` bundles
  `register`/`get_by_id`.  `Engine.hasFast` models the `HAS_FAST` flag.
* Cached `DatumWriter` objects are represented by the schema they were built
  from; cached decoder closures are defunctionalised as `DecoderFunc`
  (`fast` = the `schemaless_reader` lambda capturing the two JSON schemas,
  `slow` = the `DatumReader` closure capturing writer and reader schema).
* `struct.pack('b', 0)` is the byte 0; `struct.pack('>I', n)` is the 4-byte
  big-endian encoding, failing (struct.error) for `n ≥ 2^32`;
  `struct.unpack('>bI', bs)` reads a signed byte and a big-endian u32.
* Python exceptions become `Except SerErr`; exceptions raised by the external
  engine (avro type errors, struct.error) are collapsed to `SerErr.engineErr`
  since no claim inspects their payload.
-/

/-- MAGIC_BYTE = 0 (module-level constant of the source).  It is compared,
via `struct.unpack('>bI', ...)`, against a signed byte, hence `Int`. -/
def MAGIC_BYTE : Int := 0

/-- Interpretation of one byte by the struct format character b (signed char). -/
def signedByte (b : Nat) : Int :=
  if b < 128 then (b : Int) else (b : Int) - 256

/-- Big-endian 32-bit value of four bytes, as read by struct.unpack with
format I after format b. -/
def be32 (b1 b2 b3 b4 : Nat) : Nat :=
  ((b1 * 256 + b2) * 256 + b3) * 256 + b4

/-- The four big-endian digit bytes of a 32-bit value, as written by
struct.pack with format I (most significant byte first). -/
def u32digits (n : Nat) : List Nat :=
  [n / 2 ^ 24 % 256, n / 2 ^ 16 % 256, n / 2 ^ 8 % 256, n % 256]

/-- struct.pack of an unsigned 32-bit big-endian integer; raises struct.error
(`Except.error`) when the value does not fit. -/
def pack_u32_be (n : Nat) : Except Unit (List Nat) :=
  if n < 2 ^ 32 then .ok (u32digits n) else .error ()

/-- A seekable byte buffer with a read cursor (`io.BytesIO` used through
`ContextStringIO`): reading never changes `data`, only `pos`. -/
structure ByteStream where
  data : List Nat
  pos : Nat
  deriving DecidableEq

/-- Defunctionalised cached decoder closure (values of id_to_decoder_func):
`fast wj rj` is the lambda over `fastavro.schemaless_reader` capturing the
writer and reader schema JSON; `slow w r` is the closure over
`avro.io.DatumReader(w, r).read`. -/
inductive DecoderFunc (S J : Type) where
  | fast (writerJson readerJson : J)
  | slow (writer : S) (reader : Option S)
  deriving DecidableEq

/-- Error values: `KeySerializerError`, `ValueSerializerError`, plain
`SerializerError`, and exceptions propagating from the engine or
struct packing (`engineErr`). -/
inductive SerErr where
  | key (msg : String)
  | value (msg : String)
  | generic (msg : String)
  | engineErr
  deriving DecidableEq

/-- `serialize_err = KeySerializerError if is_key else ValueSerializerError`. -/
def serializeErr (is_key : Bool) (msg : String) : SerErr :=
  if is_key then .key msg else .value msg

/-- Outcome of `registry_client.get_by_id`: a raised `ClientError`, a falsy
(`None`) result, or a schema object. -/
inductive RegLookup (S : Type) where
  | clientError (msg : String)
  | absent
  | found (schema : S)
  deriving DecidableEq

/-- The schema-registry collaborator.  `register` returns the identifier or
`none` for a falsy result (`None`). -/
structure Registry (S : Type) where
  get_by_id : Nat → RegLookup S
  register : String → S → Option Nat

/-- The avro / fastavro engine collaborator.  `hasFast` is the module flag
`HAS_FAST`; `schemalessRead` is `fastavro.schemaless_reader` (reader schema
optional, as in the two-argument trial call), reading `data` from `pos` and
returning the value and the new position; `datumRead` likewise for
`avro.io.DatumReader(writer, reader).read`; `avroWrite` is
`avro.io.DatumWriter(schema).write`, which may raise on an invalid record. -/
structure Engine (S J R : Type) where
  hasFast : Bool
  toJson : S → J
  nsOf : S → String
  nameOf : S → String
  avroWrite : S → R → Except Unit (List Nat)
  schemalessRead : J → Option J → List Nat → Nat → Except Unit (R × Nat)
  datumRead : S → Option S → List Nat → Nat → Except Unit (R × Nat)

/-- The `MessageSerializer` instance state: the two caches and the two
construction-time reader schemas. -/
structure SState (S J : Type) where
  id_to_writers : Nat → Option S
  id_to_decoder_func : Nat → Option (DecoderFunc S J)
  reader_key_schema : Option S
  reader_value_schema : Option S

/-- Observable external events of one operation: a `get_by_id` call, a
`register` call, or a fastavro trial decode (strategy probe). -/
inductive REvent where
  | lookup (schema_id : Nat)
  | registerEv (subject : String)
  | probe (schema_id : Nat)
  deriving DecidableEq

variable {S J R : Type}

/-- The body of `encode_record_with_schema_id` after the writer is available:
write MAGIC_BYTE, the packed big-endian id, then the avro-encoded record. -/
def encodePayload (e : Engine S J R) (schema_id : Nat) (record : R) (w : S) :
    Except SerErr (List Nat) :=
  match pack_u32_be schema_id with
  | .error _ => .error .engineErr
  | .ok idBytes =>
    match e.avroWrite w record with
    | .error _ => .error .engineErr
    | .ok payload => .ok (0 :: idBytes ++ payload)

/-- `MessageSerializer.encode_record_with_schema_id`.  Returns the result,
the new state, and the registry events performed. -/
def encode_record_with_schema_id (e : Engine S J R) (reg : Registry S)
    (schema_id : Nat) (record : R) (is_key : Bool) (st : SState S J) :
    Except SerErr (List Nat) × SState S J × List REvent :=
  match st.id_to_writers schema_id with
  | some w => (encodePayload e schema_id record w, st, [])
  | none =>
    match reg.get_by_id schema_id with
    | .clientError m =>
        (.error (serializeErr is_key ("ClientError: " ++ m)), st, [.lookup schema_id])
    | .absent =>
        (.error (serializeErr is_key "Schema does not exist"), st, [.lookup schema_id])
    | .found sch =>
        (encodePayload e schema_id record sch,
         { st with id_to_writers := fun i =>
             if i = schema_id then some sch else st.id_to_writers i },
         [.lookup schema_id])

/-- The registry subject, `schema.namespace + '.' + schema.name`. -/
def subjectOf (e : Engine S J R) (schema : S) : String :=
  e.nsOf schema ++ "." ++ e.nameOf schema

/-- `MessageSerializer.encode_record_with_schema`: register, check the
identifier for falsiness (`if not schema_id`, so `None` and `0` alike),
unconditionally cache a fresh writer, then delegate. -/
def encode_record_with_schema (e : Engine S J R) (reg : Registry S)
    (schema : S) (record : R) (is_key : Bool) (st : SState S J) :
    Except SerErr (List Nat) × SState S J × List REvent :=
  let subject := subjectOf e schema
  match reg.register subject schema with
  | none =>
      (.error (serializeErr is_key ("Unable to retrieve schema id for subject " ++ subject)),
       st, [.registerEv subject])
  | some schema_id =>
    if schema_id = 0 then
      (.error (serializeErr is_key ("Unable to retrieve schema id for subject " ++ subject)),
       st, [.registerEv subject])
    else
      let st1 : SState S J :=
        { st with id_to_writers := fun i =>
            if i = schema_id then some schema else st.id_to_writers i }
      let r := encode_record_with_schema_id e reg schema_id record is_key st1
      (r.1, r.2.1, .registerEv subject :: r.2.2)

/-- The reference-strategy tail of `_get_decoder_func`: seek back to
`curr_pos`, build the `DatumReader` closure, cache and return it. -/
def bindSlow (st : SState S J) (schema_id : Nat) (payload : ByteStream)
    (curr_pos : Nat) (w : S) (r : Option S) (tr : List REvent) :
    Except SerErr (DecoderFunc S J × ByteStream) × SState S J × List REvent :=
  let d : DecoderFunc S J := .slow w r
  (.ok (d, { payload with pos := curr_pos }),
   { st with id_to_decoder_func := fun i =>
       if i = schema_id then some d else st.id_to_decoder_func i },
   tr)

/-- `MessageSerializer._get_decoder_func`.  The fast branch first converts
both schemas to JSON (`reader_schema_obj.to_json()` raises when the reader
schema is `None`, caught by the blanket `except`), then tries a trial
`schemaless_reader` with the writer schema only; any failure falls through
to the reference strategy.  The cursor is re-seeked to `curr_pos` on every
path that returns a decoder. -/
def _get_decoder_func (e : Engine S J R) (reg : Registry S) (schema_id : Nat)
    (payload : ByteStream) (is_key : Bool) (st : SState S J) :
    Except SerErr (DecoderFunc S J × ByteStream) × SState S J × List REvent :=
  match st.id_to_decoder_func schema_id with
  | some d => (.ok (d, payload), st, [])
  | none =>
    match reg.get_by_id schema_id with
    | .clientError m =>
        (.error (.generic ("unable to fetch schema with id " ++ toString schema_id ++ ": " ++ m)),
         st, [.lookup schema_id])
    | .absent =>
        (.error (.generic ("unable to fetch schema with id " ++ toString schema_id)),
         st, [.lookup schema_id])
    | .found writer_schema_obj =>
      let curr_pos := payload.pos
      let reader_schema_obj : Option S :=
        if is_key then st.reader_key_schema else st.reader_value_schema
      if e.hasFast then
        match reader_schema_obj with
        | none =>
            bindSlow st schema_id payload curr_pos writer_schema_obj none
              [.lookup schema_id]
        | some rs =>
          let wj := e.toJson writer_schema_obj
          let rj := e.toJson rs
          match e.schemalessRead wj none payload.data payload.pos with
          | .ok _ =>
              let d : DecoderFunc S J := .fast wj rj
              (.ok (d, { payload with pos := curr_pos }),
               { st with id_to_decoder_func := fun i =>
                   if i = schema_id then some d else st.id_to_decoder_func i },
               [.lookup schema_id, .probe schema_id])
          | .error _ =>
              bindSlow st schema_id payload curr_pos writer_schema_obj (some rs)
                [.lookup schema_id, .probe schema_id]
      else
        bindSlow st schema_id payload curr_pos writer_schema_obj reader_schema_obj
          [.lookup schema_id]

/-- Invoking a cached decoder closure on the payload stream. -/
def applyDecoder (e : Engine S J R) : DecoderFunc S J → ByteStream → Except Unit (R × Nat)
  | .fast wj rj, p => e.schemalessRead wj (some rj) p.data p.pos
  | .slow w r, p => e.datumRead w r p.data p.pos

/-- `MessageSerializer.decode_message`: `None` passes through; messages of
length `<= 5` are too small; `struct.unpack('>bI', ...)` of the first five
bytes gives the signed magic byte and the big-endian schema id; a decoder is
resolved and applied to the stream positioned after the header. -/
def decode_message (e : Engine S J R) (reg : Registry S)
    (message : Option (List Nat)) (is_key : Bool) (st : SState S J) :
    Except SerErr (Option R) × SState S J × List REvent :=
  match message with
  | none => (.ok none, st, [])
  | some msg =>
    if msg.length ≤ 5 then
      (.error (.generic "message is too small to decode"), st, [])
    else
      let magic := signedByte (msg.getD 0 0)
      let schema_id := be32 (msg.getD 1 0) (msg.getD 2 0) (msg.getD 3 0) (msg.getD 4 0)
      if magic ≠ MAGIC_BYTE then
        (.error (.generic "message does not start with magic byte"), st, [])
      else
        match _get_decoder_func e reg schema_id { data := msg, pos := 5 } is_key st with
        | (.error err, st2, tr) => (.error err, st2, tr)
        | (.ok (d, p), st2, tr) =>
          match applyDecoder e d p with
          | .error _ => (.error .engineErr, st2, tr)
          | .ok (r, _) => (.ok (some r), st2, tr)

/-- A client-visible operation on one `MessageSerializer` instance. -/
inductive Op (S R : Type) where
  | encodeWithSchema (schema : S) (record : R) (is_key : Bool)
  | encodeWithId (schema_id : Nat) (record : R) (is_key : Bool)
  | decode (message : Option (List Nat)) (is_key : Bool)

/-- State/event effect of one operation (the returned value is dropped). -/
def runOp (e : Engine S J R) (reg : Registry S) : Op S R → SState S J → SState S J × List REvent
  | .encodeWithSchema sch rec k, st =>
      let r := encode_record_with_schema e reg sch rec k st
      (r.2.1, r.2.2)
  | .encodeWithId i rec k, st =>
      let r := encode_record_with_schema_id e reg i rec k st
      (r.2.1, r.2.2)
  | .decode m k, st =>
      let r := decode_message e reg m k st
      (r.2.1, r.2.2)

/-- Running a sequence of operations, concatenating their event traces. -/
def runOps (e : Engine S J R) (reg : Registry S) : List (Op S R) → SState S J → SState S J × List REvent
  | [], st => (st, [])
  | op :: ops, st =>
      let r := runOp e reg op st
      let rest := runOps e reg ops r.1
      (rest.1, r.2 ++ rest.2)

/-- Whether an event is a `get_by_id` call for the given identifier. -/
def isLookup (i : Nat) : REvent → Bool
  | .lookup j => j == i
  | _ => false

/-- Whether an event is a fastavro strategy probe for the given identifier. -/
def isProbe (i : Nat) : REvent → Bool
  | .probe j => j == i
  | _ => false

/-- Number of `get_by_id` calls for identifier `i` in a trace. -/
def lookupCount (tr : List REvent) (i : Nat) : Nat :=
  (tr.filter (isLookup i)).length

/-- Number of strategy probes for identifier `i` in a trace. -/
def probeCount (tr : List REvent) (i : Nat) : Nat :=
  (tr.filter (isProbe i)).length

/-! ### Concrete instances used by witnesses and counterexamples -/

/-- A minimal engine over `Nat` schemas/records: no fastavro, records encode
to their single low byte, the reference reader reads one byte back. -/
def trivEngine : Engine Nat Nat Nat where
  hasFast := false
  toJson := fun s => s
  nsOf := fun _ => "test"
  nameOf := fun _ => "User"
  avroWrite := fun _ r => .ok [r % 256]
  schemalessRead := fun _ _ _ _ => .error ()
  datumRead := fun _ _ data pos =>
    match data.drop pos with
    | [] => .error ()
    | b :: _ => .ok (b, pos + 1)

/-- A registry that knows schema 3 under every identifier and registers
everything as identifier 7. -/
def trivReg : Registry Nat where
  get_by_id := fun _ => .found 3
  register := fun _ _ => some 7

/-- A registry whose lookups always raise `ClientError`. -/
def regErr : Registry Nat where
  get_by_id := fun _ => .clientError "boom"
  register := fun _ _ => none

/-- A registry whose registration returns identifier 0. -/
def regZero : Registry Nat where
  get_by_id := fun _ => .absent
  register := fun _ _ => some 0

/-- A registry whose registration returns no identifier. -/
def regNone : Registry Nat where
  get_by_id := fun _ => .absent
  register := fun _ _ => none

/-- A fresh serializer state: both caches empty, no reader schemas. -/
def stEmpty : SState Nat Nat where
  id_to_writers := fun _ => none
  id_to_decoder_func := fun _ => none
  reader_key_schema := none
  reader_value_schema := none

/-- A fresh state whose value reader schema is schema 3. -/
def stReader3 : SState Nat Nat where
  id_to_writers := fun _ => none
  id_to_decoder_func := fun _ => none
  reader_key_schema := none
  reader_value_schema := some 3

/-! ### Claim theorems -/

/-- C2: with a Writer Context already cached for the identifier (and the
engine succeeding on the record), `encode_record_with_schema_id` returns
exactly the marker byte 0, the four big-endian digit bytes of the
identifier — whose big-endian value is the identifier itself — and the
payload verbatim; the total length is `5 + |payload| ≥ 5`. -/
theorem encode_layout_marker_id_payload (e : Engine S J R) (reg : Registry S)
    (schema_id : Nat) (record : R) (is_key : Bool) (st : SState S J)
    (w : S) (P : List Nat)
    (hw : st.id_to_writers schema_id = some w)
    (hid : schema_id < 2 ^ 32)
    (hP : e.avroWrite w record = .ok P) :
    (encode_record_with_schema_id e reg schema_id record is_key st).1 =
      .ok ([0, schema_id / 2 ^ 24 % 256, schema_id / 2 ^ 16 % 256,
            schema_id / 2 ^ 8 % 256, schema_id % 256] ++ P) ∧
    be32 (schema_id / 2 ^ 24 % 256) (schema_id / 2 ^ 16 % 256)
        (schema_id / 2 ^ 8 % 256) (schema_id % 256) = schema_id ∧
    ([0, schema_id / 2 ^ 24 % 256, schema_id / 2 ^ 16 % 256,
      schema_id / 2 ^ 8 % 256, schema_id % 256] ++ P).length = 5 + P.length := by
  refine ⟨?_, ?_, ?_⟩
  · simp only [encode_record_with_schema_id, hw, encodePayload, pack_u32_be,
      if_pos hid, hP, u32digits]
  · unfold be32
    omega
  · simp
    omega

/-- C2 witness: identifier 7 with cached schema 3 and record 42 encodes to
`[0, 0, 0, 0, 7, 42]`. -/
theorem encode_layout_marker_id_payload_witness :
    (encode_record_with_schema_id trivEngine trivReg 7 42 false
        { stEmpty with id_to_writers := fun i => if i = 7 then some 3 else none }).1 =
      .ok ([0, 7 / 2 ^ 24 % 256, 7 / 2 ^ 16 % 256, 7 / 2 ^ 8 % 256, 7 % 256] ++ [42 % 256]) ∧
    be32 (7 / 2 ^ 24 % 256) (7 / 2 ^ 16 % 256) (7 / 2 ^ 8 % 256) (7 % 256) = 7 ∧
    ([0, 7 / 2 ^ 24 % 256, 7 / 2 ^ 16 % 256, 7 / 2 ^ 8 % 256, 7 % 256] ++ [42 % 256]).length =
      5 + [42 % 256].length :=
  encode_layout_marker_id_payload trivEngine trivReg 7 42 false
    { stEmpty with id_to_writers := fun i => if i = 7 then some 3 else none }
    3 [42 % 256] rfl (by decide) rfl

/-- C3: any non-null message shorter than 5 bytes, and any message of length
at least 5 whose first byte is a nonzero byte value, is rejected by
`decode_message` with one of the two framing `SerializerError`s, leaving the
state (both caches) unchanged and performing no registry call or probe. -/
theorem decode_framing_rejection (e : Engine S J R) (reg : Registry S)
    (is_key : Bool) (st : SState S J) (msg : List Nat)
    (h : msg.length < 5 ∨
         (5 ≤ msg.length ∧ msg.getD 0 0 ≠ 0 ∧ msg.getD 0 0 < 256)) :
    ((decode_message e reg (some msg) is_key st).1 =
        .error (.generic "message is too small to decode") ∨
     (decode_message e reg (some msg) is_key st).1 =
        .error (.generic "message does not start with magic byte")) ∧
    (decode_message e reg (some msg) is_key st).2.1 = st ∧
    (decode_message e reg (some msg) is_key st).2.2 = [] := by
  by_cases hle : msg.length ≤ 5
  · have hdec : decode_message e reg (some msg) is_key st =
        (.error (.generic "message is too small to decode"), st, []) := by
      unfold decode_message
      simp [hle]
    rw [hdec]
    exact ⟨Or.inl rfl, rfl, rfl⟩
  · rcases h with hlt | ⟨_, hb0, hb0lt⟩
    · omega
    · have hmagic : signedByte (msg.getD 0 0) ≠ MAGIC_BYTE := by
        unfold signedByte MAGIC_BYTE
        split <;> omega
      have hdec : decode_message e reg (some msg) is_key st =
          (.error (.generic "message does not start with magic byte"), st, []) := by
        unfold decode_message
        simp only [if_neg hle, if_pos hmagic]
      rw [hdec]
      exact ⟨Or.inr rfl, rfl, rfl⟩

/-- C3 witness: the 3-byte message `[1, 2, 3]` is rejected as a framing
error with no state change and no registry traffic. -/
theorem decode_framing_rejection_witness :
    (((decode_message trivEngine trivReg (some [1, 2, 3]) false stEmpty).1 =
        .error (.generic "message is too small to decode") ∨
      (decode_message trivEngine trivReg (some [1, 2, 3]) false stEmpty).1 =
        .error (.generic "message does not start with magic byte")) ∧
     (decode_message trivEngine trivReg (some [1, 2, 3]) false stEmpty).2.1 = stEmpty ∧
     (decode_message trivEngine trivReg (some [1, 2, 3]) false stEmpty).2.2 = []) :=
  decode_framing_rejection trivEngine trivReg false stEmpty [1, 2, 3]
    (Or.inl (by decide))

/-- C4 counterexample: the 5-byte message `[0, 0, 0, 0, 0]` (correct 0x00
marker, empty payload) IS rejected with the too-small framing error, because
the source tests `len(message) <= 5`, not `< 5`. -/
theorem decode_exact_five_is_rejected :
    (decode_message trivEngine trivReg (some [0, 0, 0, 0, 0]) false stEmpty).1 =
      .error (.generic "message is too small to decode") := rfl

/-- C4 amended: every message of length at most 5 — including a 5-byte
message with correct marker and empty payload — is rejected with the
too-small framing error; the minimum length that passes the size check
is 6. -/
theorem decode_length_le_five_too_small (e : Engine S J R) (reg : Registry S)
    (is_key : Bool) (st : SState S J) (msg : List Nat)
    (hle : msg.length ≤ 5) :
    decode_message e reg (some msg) is_key st =
      (.error (.generic "message is too small to decode"), st, []) := by
  unfold decode_message
  simp [hle]

/-- C4 amended witness: applied to the 5-byte all-zero message. -/
theorem decode_length_le_five_too_small_witness :
    decode_message trivEngine trivReg (some [0, 0, 0, 0, 0]) false stEmpty =
      (.error (.generic "message is too small to decode"), stEmpty, []) :=
  decode_length_le_five_too_small trivEngine trivReg false stEmpty
    [0, 0, 0, 0, 0] (by decide)

/-- C10: a registration result of identifier 0 is treated by
`encode_record_with_schema` exactly like an absent identifier: it raises the
key/value serialization error (per `is_key`), mutates neither cache, and the
whole outcome coincides with that of a registry returning no identifier. -/
theorem register_zero_id_like_absent (e : Engine S J R) (reg reg' : Registry S)
    (schema : S) (record : R) (is_key : Bool) (st : SState S J)
    (h0 : reg.register (subjectOf e schema) schema = some 0)
    (hn : reg'.register (subjectOf e schema) schema = none) :
    encode_record_with_schema e reg schema record is_key st =
      (.error (serializeErr is_key
          ("Unable to retrieve schema id for subject " ++ subjectOf e schema)),
       st, [.registerEv (subjectOf e schema)]) ∧
    encode_record_with_schema e reg schema record is_key st =
      encode_record_with_schema e reg' schema record is_key st := by
  simp only [encode_record_with_schema, h0, hn]
  simp

/-- C10 witness: registering schema 3 with a registry that returns id 0
errors with a `ValueSerializerError`, caches nothing, and behaves like a
registry returning nothing. -/
theorem register_zero_id_like_absent_witness :
    encode_record_with_schema trivEngine regZero 3 42 false stEmpty =
      (.error (serializeErr false
          ("Unable to retrieve schema id for subject " ++ subjectOf trivEngine 3)),
       stEmpty, [.registerEv (subjectOf trivEngine 3)]) ∧
    encode_record_with_schema trivEngine regZero 3 42 false stEmpty =
      encode_record_with_schema trivEngine regNone 3 42 false stEmpty :=
  register_zero_id_like_absent trivEngine regZero regNone 3 42 false stEmpty rfl rfl

/-- An engine with fastavro available whose trial decode always raises. -/
def fastFailEngine : Engine Nat Nat Nat where
  hasFast := true
  toJson := fun s => s
  nsOf := fun _ => "test"
  nameOf := fun _ => "User"
  avroWrite := fun _ r => .ok [r % 256]
  schemalessRead := fun _ _ _ _ => .error ()
  datumRead := fun _ _ data pos =>
    match data.drop pos with
    | [] => .error ()
    | b :: _ => .ok (b, pos + 1)

/-- C7: with the optimized engine available, a cache miss, a fetchable writer
schema and a present reader schema, `_get_decoder_func` always returns a
decoder together with a payload cursor restored to its pre-trial position
(same data, same position), and whenever the trial decode raises, no error
is surfaced: the identifier is bound to the reference-strategy
(`DatumReader`) closure. -/
theorem trial_failure_silently_binds_reference (e : Engine S J R) (reg : Registry S)
    (schema_id : Nat) (p : ByteStream) (is_key : Bool) (st : SState S J) (w rs : S)
    (hFast : e.hasFast = true)
    (hmiss : st.id_to_decoder_func schema_id = none)
    (hfound : reg.get_by_id schema_id = .found w)
    (hr : (if is_key then st.reader_key_schema else st.reader_value_schema) = some rs) :
    (∃ d p', (_get_decoder_func e reg schema_id p is_key st).1 = .ok (d, p') ∧
       p'.data = p.data ∧ p'.pos = p.pos) ∧
    (∀ u, e.schemalessRead (e.toJson w) none p.data p.pos = .error u →
       (_get_decoder_func e reg schema_id p is_key st).1 =
         .ok (.slow w (some rs), { p with pos := p.pos }) ∧
       (_get_decoder_func e reg schema_id p is_key st).2.1.id_to_decoder_func schema_id =
         some (.slow w (some rs))) := by
  rcases htr : e.schemalessRead (e.toJson w) none p.data p.pos with u | t
  · have hres : _get_decoder_func e reg schema_id p is_key st =
        (.ok (.slow w (some rs), { p with pos := p.pos }),
         { st with id_to_decoder_func := fun i =>
             if i = schema_id then some (.slow w (some rs)) else st.id_to_decoder_func i },
         [.lookup schema_id, .probe schema_id]) := by
      simp only [_get_decoder_func, hmiss, hfound, hFast, hr, htr, bindSlow, if_true]
    rw [hres]
    exact ⟨⟨.slow w (some rs), { p with pos := p.pos }, rfl, rfl, rfl⟩,
      fun u _ => ⟨rfl, by simp⟩⟩
  · have hres : _get_decoder_func e reg schema_id p is_key st =
        (.ok (.fast (e.toJson w) (e.toJson rs), { p with pos := p.pos }),
         { st with id_to_decoder_func := fun i =>
             if i = schema_id then some (.fast (e.toJson w) (e.toJson rs))
             else st.id_to_decoder_func i },
         [.lookup schema_id, .probe schema_id]) := by
      simp only [_get_decoder_func, hmiss, hfound, hFast, hr, htr, if_true]
    rw [hres]
    refine ⟨⟨.fast (e.toJson w) (e.toJson rs), { p with pos := p.pos }, rfl, rfl, rfl⟩,
      fun u hu => ?_⟩
    exact absurd hu (by simp)

/-- C7 witness: with `fastFailEngine` (trial always raises), identifier 7 is
silently bound to the reference decoder and the cursor stays at 5. -/
theorem trial_failure_silently_binds_reference_witness :
    (∃ d p', (_get_decoder_func fastFailEngine trivReg 7
        { data := [0, 0, 0, 0, 7, 42], pos := 5 } false stReader3).1 = .ok (d, p') ∧
       p'.data = [0, 0, 0, 0, 7, 42] ∧ p'.pos = 5) ∧
    (∀ u, fastFailEngine.schemalessRead (fastFailEngine.toJson 3) none [0, 0, 0, 0, 7, 42] 5 =
        .error u →
       (_get_decoder_func fastFailEngine trivReg 7
          { data := [0, 0, 0, 0, 7, 42], pos := 5 } false stReader3).1 =
         .ok (.slow 3 (some 3), { data := [0, 0, 0, 0, 7, 42], pos := 5 }) ∧
       (_get_decoder_func fastFailEngine trivReg 7
          { data := [0, 0, 0, 0, 7, 42], pos := 5 } false stReader3).2.1.id_to_decoder_func 7 =
         some (.slow 3 (some 3))) :=
  trial_failure_silently_binds_reference fastFailEngine trivReg 7
    { data := [0, 0, 0, 0, 7, 42], pos := 5 } false stReader3 3 3 rfl rfl rfl rfl

/-- C9: when the applicable reader schema is unset, decoder resolution always
binds the reference strategy even with the optimized engine available
(converting the absent reader schema raises before the payload is probed, so
the trace contains the lookup but no probe event), and the failure is
swallowed: the call returns the reference closure successfully. -/
theorem absent_reader_always_binds_reference (e : Engine S J R) (reg : Registry S)
    (schema_id : Nat) (p : ByteStream) (is_key : Bool) (st : SState S J) (w : S)
    (hFast : e.hasFast = true)
    (hmiss : st.id_to_decoder_func schema_id = none)
    (hfound : reg.get_by_id schema_id = .found w)
    (hr : (if is_key then st.reader_key_schema else st.reader_value_schema) = none) :
    _get_decoder_func e reg schema_id p is_key st =
      (.ok (.slow w none, { p with pos := p.pos }),
       { st with id_to_decoder_func := fun i =>
           if i = schema_id then some (.slow w none) else st.id_to_decoder_func i },
       [.lookup schema_id]) ∧
    probeCount (_get_decoder_func e reg schema_id p is_key st).2.2 schema_id = 0 := by
  have hres : _get_decoder_func e reg schema_id p is_key st =
      (.ok (.slow w none, { p with pos := p.pos }),
       { st with id_to_decoder_func := fun i =>
           if i = schema_id then some (.slow w none) else st.id_to_decoder_func i },
       [.lookup schema_id]) := by
    simp only [_get_decoder_func, hmiss, hfound, hFast, hr, bindSlow, if_true]
  rw [hres]
  exact ⟨rfl, rfl⟩

/-- C9 witness: an engine whose trial would always succeed still binds the
reference decoder for identifier 7 when the value reader schema is unset. -/
theorem absent_reader_always_binds_reference_witness :
    _get_decoder_func { fastFailEngine with schemalessRead := fun _ _ _ p => .ok (0, p) }
        trivReg 7 { data := [0, 0, 0, 0, 7, 42], pos := 5 } false stEmpty =
      (.ok (.slow 3 none, { data := ([0, 0, 0, 0, 7, 42] : List Nat), pos := 5 }),
       { stEmpty with id_to_decoder_func := fun i =>
           if i = 7 then some (.slow 3 none) else stEmpty.id_to_decoder_func i },
       [.lookup 7]) ∧
    probeCount (_get_decoder_func { fastFailEngine with schemalessRead := fun _ _ _ p => .ok (0, p) }
        trivReg 7 { data := [0, 0, 0, 0, 7, 42], pos := 5 } false stEmpty).2.2 7 = 0 :=
  absent_reader_always_binds_reference
    { fastFailEngine with schemalessRead := fun _ _ _ p => .ok (0, p) }
    trivReg 7 { data := [0, 0, 0, 0, 7, 42], pos := 5 } false stEmpty 3 rfl rfl rfl rfl

/-- C8: failed resolution mutates nothing.  If the writer is uncached and the
registry lookup raises or reports the schema absent, `encode_record_with_schema_id`
errors with the state intact; likewise for decoder resolution; and if
registration returns no identifier (or the falsy identifier 0),
`encode_record_with_schema` errors with the state intact.  In each case the
trace shows the single failed call, so a later call retries from scratch. -/
theorem failed_resolution_caches_nothing (e : Engine S J R) (reg : Registry S)
    (schema_id : Nat) (record : R) (schema : S) (p : ByteStream)
    (is_key : Bool) (st : SState S J) :
    (st.id_to_writers schema_id = none →
     (∀ s0, reg.get_by_id schema_id ≠ .found s0) →
     ∃ err, encode_record_with_schema_id e reg schema_id record is_key st =
       (.error err, st, [.lookup schema_id])) ∧
    (st.id_to_decoder_func schema_id = none →
     (∀ s0, reg.get_by_id schema_id ≠ .found s0) →
     ∃ err, _get_decoder_func e reg schema_id p is_key st =
       (.error err, st, [.lookup schema_id])) ∧
    ((reg.register (subjectOf e schema) schema = none ∨
      reg.register (subjectOf e schema) schema = some 0) →
     ∃ err, encode_record_with_schema e reg schema record is_key st =
       (.error err, st, [.registerEv (subjectOf e schema)])) := by
  refine ⟨fun hw hnf => ?_, fun hd hnf => ?_, fun hreg => ?_⟩
  · rcases hre : reg.get_by_id schema_id with m | _ | s0
    · exact ⟨serializeErr is_key ("ClientError: " ++ m),
        by simp only [encode_record_with_schema_id, hw, hre]⟩
    · exact ⟨serializeErr is_key "Schema does not exist",
        by simp only [encode_record_with_schema_id, hw, hre]⟩
    · exact absurd hre (hnf s0)
  · rcases hre : reg.get_by_id schema_id with m | _ | s0
    · exact ⟨.generic ("unable to fetch schema with id " ++ toString schema_id ++ ": " ++ m),
        by simp only [_get_decoder_func, hd, hre]⟩
    · exact ⟨.generic ("unable to fetch schema with id " ++ toString schema_id),
        by simp only [_get_decoder_func, hd, hre]⟩
    · exact absurd hre (hnf s0)
  · rcases hreg with hreg | hreg
    · exact ⟨serializeErr is_key ("Unable to retrieve schema id for subject " ++ subjectOf e schema),
        by simp only [encode_record_with_schema, hreg]⟩
    · exact ⟨serializeErr is_key ("Unable to retrieve schema id for subject " ++ subjectOf e schema),
        by simp only [encode_record_with_schema, hreg]; simp⟩

/-- C8 witness: with a registry whose lookups raise `ClientError` and whose
registration returns nothing, all three failure shapes leave the fresh state
untouched. -/
theorem failed_resolution_caches_nothing_witness :
    (∃ err, encode_record_with_schema_id trivEngine regErr 7 42 false stEmpty =
       (.error err, stEmpty, [.lookup 7])) ∧
    (∃ err, _get_decoder_func trivEngine regErr 7
       { data := [0, 0, 0, 0, 7, 42], pos := 5 } false stEmpty =
       (.error err, stEmpty, [.lookup 7])) ∧
    (∃ err, encode_record_with_schema trivEngine regErr 3 42 false stEmpty =
       (.error err, stEmpty, [.registerEv (subjectOf trivEngine 3)])) := by
  have h := failed_resolution_caches_nothing trivEngine regErr 7 42 3
    { data := [0, 0, 0, 0, 7, 42], pos := 5 } false stEmpty
  exact ⟨h.1 rfl (fun s0 hs => by simp [regErr] at hs),
         h.2.1 rfl (fun s0 hs => by simp [regErr] at hs),
         h.2.2 (Or.inl rfl)⟩

/-! ### State-effect helper lemmas -/

/-- `encode_record_with_schema_id` never touches the decoder cache or the
reader schemas, and never overwrites an existing writer cache entry. -/
theorem encode_id_state_effect (e : Engine S J R) (reg : Registry S)
    (schema_id : Nat) (record : R) (is_key : Bool) (st : SState S J) :
    (encode_record_with_schema_id e reg schema_id record is_key st).2.1.id_to_decoder_func =
      st.id_to_decoder_func ∧
    (encode_record_with_schema_id e reg schema_id record is_key st).2.1.reader_key_schema =
      st.reader_key_schema ∧
    (encode_record_with_schema_id e reg schema_id record is_key st).2.1.reader_value_schema =
      st.reader_value_schema ∧
    ∀ i w, st.id_to_writers i = some w →
      (encode_record_with_schema_id e reg schema_id record is_key st).2.1.id_to_writers i = some w := by
  rcases hw : st.id_to_writers schema_id with _ | w0
  · rcases hre : reg.get_by_id schema_id with m | _ | s0
    · simp only [encode_record_with_schema_id, hw, hre]
      exact ⟨by trivial, by trivial, by trivial, fun i w hi => hi⟩
    · simp only [encode_record_with_schema_id, hw, hre]
      exact ⟨by trivial, by trivial, by trivial, fun i w hi => hi⟩
    · simp only [encode_record_with_schema_id, hw, hre]
      refine ⟨by trivial, by trivial, by trivial, fun i w hi => ?_⟩
      by_cases hii : i = schema_id
      · subst hii
        exact absurd hi (by simp [hw])
      · simp [hii, hi]
  · simp only [encode_record_with_schema_id, hw]
    exact ⟨by trivial, by trivial, by trivial, fun i w hi => hi⟩

/-- `_get_decoder_func` never touches the writer cache or the reader schemas,
and never overwrites an existing decoder cache entry. -/
theorem get_decoder_state_effect (e : Engine S J R) (reg : Registry S)
    (schema_id : Nat) (p : ByteStream) (is_key : Bool) (st : SState S J) :
    (_get_decoder_func e reg schema_id p is_key st).2.1.id_to_writers = st.id_to_writers ∧
    (_get_decoder_func e reg schema_id p is_key st).2.1.reader_key_schema =
      st.reader_key_schema ∧
    (_get_decoder_func e reg schema_id p is_key st).2.1.reader_value_schema =
      st.reader_value_schema ∧
    ∀ i d, st.id_to_decoder_func i = some d →
      (_get_decoder_func e reg schema_id p is_key st).2.1.id_to_decoder_func i = some d := by
  have hpres : ∀ (d' : DecoderFunc S J), st.id_to_decoder_func schema_id = none →
      ∀ i d, st.id_to_decoder_func i = some d →
        (if i = schema_id then some d' else st.id_to_decoder_func i) = some d := by
    intro d' hnone i d hi
    by_cases hii : i = schema_id
    · subst hii
      exact absurd hi (by simp [hnone])
    · simp [hii, hi]
  rcases hd : st.id_to_decoder_func schema_id with _ | d0
  · rcases hre : reg.get_by_id schema_id with m | _ | w
    · simp only [_get_decoder_func, hd, hre]
      exact ⟨by trivial, by trivial, by trivial, fun i d hi => hi⟩
    · simp only [_get_decoder_func, hd, hre]
      exact ⟨by trivial, by trivial, by trivial, fun i d hi => hi⟩
    · by_cases hf : e.hasFast = true
      · rcases hrs : (if is_key then st.reader_key_schema else st.reader_value_schema) with _ | rs
        · simp only [_get_decoder_func, hd, hre, hf, hrs, bindSlow, if_true]
          exact ⟨by trivial, by trivial, by trivial, hpres _ hd⟩
        · rcases htr : e.schemalessRead (e.toJson w) none p.data p.pos with u | t
          · simp only [_get_decoder_func, hd, hre, hf, hrs, htr, bindSlow, if_true]
            exact ⟨by trivial, by trivial, by trivial, hpres _ hd⟩
          · simp only [_get_decoder_func, hd, hre, hf, hrs, htr, if_true]
            exact ⟨by trivial, by trivial, by trivial, hpres _ hd⟩
      · simp only [_get_decoder_func, hd, hre, if_neg hf, bindSlow]
        exact ⟨by trivial, by trivial, by trivial, hpres _ hd⟩
  · simp only [_get_decoder_func, hd]
    exact ⟨by trivial, by trivial, by trivial, fun i d hi => hi⟩

/-- `decode_message` never touches the writer cache and never overwrites an
existing decoder cache entry. -/
theorem decode_state_effect (e : Engine S J R) (reg : Registry S)
    (m : Option (List Nat)) (is_key : Bool) (st : SState S J) :
    (decode_message e reg m is_key st).2.1.id_to_writers = st.id_to_writers ∧
    ∀ i d, st.id_to_decoder_func i = some d →
      (decode_message e reg m is_key st).2.1.id_to_decoder_func i = some d := by
  rcases m with _ | msg
  · simp only [decode_message]
    exact ⟨by trivial, fun i d hi => hi⟩
  · by_cases hle : msg.length ≤ 5
    · simp only [decode_message, if_pos hle]
      exact ⟨by trivial, fun i d hi => hi⟩
    · by_cases hm : signedByte (msg.getD 0 0) ≠ MAGIC_BYTE
      · simp only [decode_message, if_neg hle, if_pos hm]
        exact ⟨by trivial, fun i d hi => hi⟩
      · have h2 := get_decoder_state_effect e reg
          (be32 (msg.getD 1 0) (msg.getD 2 0) (msg.getD 3 0) (msg.getD 4 0))
          { data := msg, pos := 5 } is_key st
        rcases hgd : _get_decoder_func e reg
            (be32 (msg.getD 1 0) (msg.getD 2 0) (msg.getD 3 0) (msg.getD 4 0))
            { data := msg, pos := 5 } is_key st with ⟨res, st2, tr⟩
        rw [hgd] at h2
        rcases res with err | dp
        · simp only [decode_message, if_neg hle, if_neg hm, hgd]
          exact ⟨h2.1, h2.2.2.2⟩
        · rcases dp with ⟨d0, p0⟩
          rcases happ : applyDecoder e d0 p0 with u | rq
          · simp only [decode_message, if_neg hle, if_neg hm, hgd, happ]
            exact ⟨h2.1, h2.2.2.2⟩
          · rcases rq with ⟨r0, q0⟩
            simp only [decode_message, if_neg hle, if_neg hm, hgd, happ]
            exact ⟨h2.1, h2.2.2.2⟩

/-- `encode_record_with_schema` never touches the decoder cache, and on a
successful (truthy) registration it refreshes the writer cache entry of the
registered identifier with the registered schema. -/
theorem encode_schema_state_effect (e : Engine S J R) (reg : Registry S)
    (schema : S) (record : R) (is_key : Bool) (st : SState S J) :
    (encode_record_with_schema e reg schema record is_key st).2.1.id_to_decoder_func =
      st.id_to_decoder_func ∧
    ∀ i, reg.register (subjectOf e schema) schema = some i → i ≠ 0 →
      (encode_record_with_schema e reg schema record is_key st).2.1.id_to_writers i =
        some schema := by
  rcases hr : reg.register (subjectOf e schema) schema with _ | i0
  · simp only [encode_record_with_schema, hr]
    exact ⟨by trivial, fun i hi => absurd hi (by simp)⟩
  · by_cases hi0 : i0 = 0
    · simp only [encode_record_with_schema, hr, if_pos hi0]
      refine ⟨by trivial, fun i hi hne => ?_⟩
      rw [Option.some_inj] at hi
      exact absurd (hi ▸ hi0) hne
    · simp only [encode_record_with_schema, hr, if_neg hi0]
      constructor
      · exact (encode_id_state_effect e reg i0 record is_key _).1
      · intro i hi hne
        rw [Option.some_inj] at hi
        subst hi
        exact (encode_id_state_effect e reg i0 record is_key _).2.2.2 i0 schema (by simp)

/-! ### C6 -/

/-- A state that already holds a Writer Context (for schema 1) under
identifier 7. -/
def stW7 : SState Nat Nat where
  id_to_writers := fun i => if i = 7 then some 1 else none
  id_to_decoder_func := fun _ => none
  reader_key_schema := none
  reader_value_schema := none

/-- C6 counterexample: identifier 7 starts mapped to a Writer Context for
schema 1; `encode_record_with_schema` of schema 2 (which the registry
registers under identifier 7) replaces that Writer Context with one for
schema 2 — the first writer does NOT win. -/
theorem writer_context_replaced_on_reregistration :
    stW7.id_to_writers 7 = some 1 ∧
    (encode_record_with_schema trivEngine trivReg 2 42 false stW7).2.1.id_to_writers 7 =
      some 2 ∧
    ((some 2 : Option Nat) ≠ some 1) := ⟨rfl, rfl, by decide⟩

/-- C6 amended: each identifier maps to at most one Writer Context and at
most one Decoder Binding at any time (the caches are maps), and neither
`encode_record_with_schema_id` nor `decode_message` ever replaces an existing
entry of either cache; but `encode_record_with_schema` refreshes the Writer
Context of the registered identifier on every successful registration, so on
that path the latest registration wins. -/
theorem cache_slots_unique_and_stable (e : Engine S J R) (reg : Registry S)
    (id schema_id : Nat) (record : R) (schema : S) (m : Option (List Nat))
    (is_key : Bool) (st : SState S J) :
    (∀ w, st.id_to_writers id = some w →
       (encode_record_with_schema_id e reg schema_id record is_key st).2.1.id_to_writers id =
         some w) ∧
    ((encode_record_with_schema_id e reg schema_id record is_key st).2.1.id_to_decoder_func =
       st.id_to_decoder_func) ∧
    ((decode_message e reg m is_key st).2.1.id_to_writers = st.id_to_writers) ∧
    (∀ d, st.id_to_decoder_func id = some d →
       (decode_message e reg m is_key st).2.1.id_to_decoder_func id = some d) ∧
    ((encode_record_with_schema e reg schema record is_key st).2.1.id_to_decoder_func =
       st.id_to_decoder_func) ∧
    (∀ i, reg.register (subjectOf e schema) schema = some i → i ≠ 0 →
       (encode_record_with_schema e reg schema record is_key st).2.1.id_to_writers i =
         some schema) :=
  ⟨fun w hw => (encode_id_state_effect e reg schema_id record is_key st).2.2.2 id w hw,
   (encode_id_state_effect e reg schema_id record is_key st).1,
   (decode_state_effect e reg m is_key st).1,
   fun d hd => (decode_state_effect e reg m is_key st).2 id d hd,
   (encode_schema_state_effect e reg schema record is_key st).1,
   (encode_schema_state_effect e reg schema record is_key st).2⟩

/-- C6 amended witness: keeping identifier 7's existing entries across an
encode of identifier 9 and a decode. -/
theorem cache_slots_unique_and_stable_witness :
    (encode_record_with_schema_id trivEngine trivReg 9 42 false stW7).2.1.id_to_writers 7 =
      some 1 ∧
    (decode_message trivEngine trivReg (some [0, 0, 0, 0, 7, 42]) false stW7).2.1.id_to_writers =
      stW7.id_to_writers :=
  ⟨(cache_slots_unique_and_stable trivEngine trivReg 7 9 42 3
      (some [0, 0, 0, 0, 7, 42]) false stW7).1 1 rfl,
   (cache_slots_unique_and_stable trivEngine trivReg 7 9 42 3
      (some [0, 0, 0, 0, 7, 42]) false stW7).2.2.1⟩

/-! ### Probe accounting for C5 -/

/-- Potential of the decoder cache at one identifier: 1 while unresolved,
0 once a binding is cached. -/
def dcost (st : SState S J) (i : Nat) : Nat :=
  match st.id_to_decoder_func i with
  | none => 1
  | some _ => 0

theorem dcost_le_one (st : SState S J) (i : Nat) : dcost st i ≤ 1 := by
  unfold dcost
  split <;> omega

theorem probeCount_append (a b : List REvent) (i : Nat) :
    probeCount (a ++ b) i = probeCount a i + probeCount b i := by
  simp [probeCount, List.filter_append]

/-- One decoder resolution performs at most one probe for an identifier, and
only while that identifier is unresolved; afterwards it is resolved. -/
theorem get_decoder_probe_bound (e : Engine S J R) (reg : Registry S)
    (schema_id : Nat) (p : ByteStream) (is_key : Bool) (st : SState S J) (i : Nat) :
    probeCount (_get_decoder_func e reg schema_id p is_key st).2.2 i +
      dcost (_get_decoder_func e reg schema_id p is_key st).2.1 i ≤ dcost st i := by
  have hup : ∀ (d' : DecoderFunc S J),
      dcost { st with id_to_decoder_func := fun j =>
          if j = schema_id then some d' else st.id_to_decoder_func j } i ≤ dcost st i := by
    intro d'
    by_cases hii : i = schema_id
    · subst hii
      simp [dcost]
    · simp [dcost, hii]
  rcases hd : st.id_to_decoder_func schema_id with _ | d0
  · rcases hre : reg.get_by_id schema_id with m | _ | w
    · simp only [_get_decoder_func, hd, hre]
      simp [probeCount, isProbe]
    · simp only [_get_decoder_func, hd, hre]
      simp [probeCount, isProbe]
    · by_cases hf : e.hasFast = true
      · rcases hrs : (if is_key then st.reader_key_schema else st.reader_value_schema) with _ | rs
        · simp only [_get_decoder_func, hd, hre, hf, hrs, bindSlow, if_true]
          have := hup (.slow w none)
          simp [probeCount, isProbe]
          omega
        · rcases htr : e.schemalessRead (e.toJson w) none p.data p.pos with u | t
          · simp only [_get_decoder_func, hd, hre, hf, hrs, htr, bindSlow, if_true]
            by_cases hii : i = schema_id
            · subst hii
              simp [probeCount, isProbe, dcost, hd]
            · have hne : schema_id ≠ i := fun h => hii h.symm
              simp [probeCount, isProbe, dcost, hii, hne]
          · simp only [_get_decoder_func, hd, hre, hf, hrs, htr, if_true]
            by_cases hii : i = schema_id
            · subst hii
              simp [probeCount, isProbe, dcost, hd]
            · have hne : schema_id ≠ i := fun h => hii h.symm
              simp [probeCount, isProbe, dcost, hii, hne]
      · simp only [_get_decoder_func, hd, hre, if_neg hf, bindSlow]
        have := hup (.slow w (if is_key then st.reader_key_schema else st.reader_value_schema))
        simp [probeCount, isProbe]
        omega
  · simp only [_get_decoder_func, hd]
    simp [probeCount]

/-- `encode_record_with_schema_id` never emits a probe event. -/
theorem encode_id_probe_free (e : Engine S J R) (reg : Registry S)
    (schema_id : Nat) (record : R) (is_key : Bool) (st : SState S J) (i : Nat) :
    probeCount (encode_record_with_schema_id e reg schema_id record is_key st).2.2 i = 0 := by
  rcases hw : st.id_to_writers schema_id with _ | w0
  · rcases hre : reg.get_by_id schema_id with m | _ | s0 <;>
      simp [encode_record_with_schema_id, hw, hre, probeCount, isProbe]
  · simp [encode_record_with_schema_id, hw, probeCount]

/-- `encode_record_with_schema` never emits a probe event. -/
theorem encode_schema_probe_free (e : Engine S J R) (reg : Registry S)
    (schema : S) (record : R) (is_key : Bool) (st : SState S J) (i : Nat) :
    probeCount (encode_record_with_schema e reg schema record is_key st).2.2 i = 0 := by
  rcases hr : reg.register (subjectOf e schema) schema with _ | i0
  · simp [encode_record_with_schema, hr, probeCount, isProbe]
  · by_cases hi0 : i0 = 0
    · simp [encode_record_with_schema, hr, hi0, probeCount, isProbe]
    · simp only [encode_record_with_schema, hr, if_neg hi0]
      simp [probeCount, isProbe, List.filter_cons]
      have h := encode_id_probe_free e reg i0 record is_key
        { st with id_to_writers := fun j =>
            if j = i0 then some schema else st.id_to_writers j } i
      simpa [probeCount] using h

/-- `decode_message` performs at most one probe for an unresolved identifier
and none for a resolved one. -/
theorem decode_probe_bound (e : Engine S J R) (reg : Registry S)
    (m : Option (List Nat)) (is_key : Bool) (st : SState S J) (i : Nat) :
    probeCount (decode_message e reg m is_key st).2.2 i +
      dcost (decode_message e reg m is_key st).2.1 i ≤ dcost st i := by
  rcases m with _ | msg
  · simp [decode_message, probeCount]
  · by_cases hle : msg.length ≤ 5
    · simp [decode_message, if_pos hle, probeCount]
    · by_cases hm : signedByte (msg.getD 0 0) ≠ MAGIC_BYTE
      · simp only [decode_message, if_neg hle, if_pos hm]
        simp [probeCount]
      · have h2 := get_decoder_probe_bound e reg
          (be32 (msg.getD 1 0) (msg.getD 2 0) (msg.getD 3 0) (msg.getD 4 0))
          { data := msg, pos := 5 } is_key st i
        rcases hgd : _get_decoder_func e reg
            (be32 (msg.getD 1 0) (msg.getD 2 0) (msg.getD 3 0) (msg.getD 4 0))
            { data := msg, pos := 5 } is_key st with ⟨res, st2, tr⟩
        rw [hgd] at h2
        rcases res with err | dp
        · simp only [decode_message, if_neg hle, if_neg hm, hgd]
          exact h2
        · rcases dp with ⟨d0, p0⟩
          rcases happ : applyDecoder e d0 p0 with u | rq
          · simp only [decode_message, if_neg hle, if_neg hm, hgd, happ]
            exact h2
          · rcases rq with ⟨r0, q0⟩
            simp only [decode_message, if_neg hle, if_neg hm, hgd, happ]
            exact h2

/-- One operation performs at most one probe per unresolved identifier. -/
theorem runOp_probe_bound (e : Engine S J R) (reg : Registry S)
    (op : Op S R) (st : SState S J) (i : Nat) :
    probeCount (runOp e reg op st).2 i + dcost (runOp e reg op st).1 i ≤ dcost st i := by
  rcases op with ⟨sch, rec, k⟩ | ⟨sid, rec, k⟩ | ⟨m, k⟩
  · simp only [runOp]
    have h1 := encode_schema_probe_free e reg sch rec k st i
    have h2 : dcost (encode_record_with_schema e reg sch rec k st).2.1 i = dcost st i := by
      unfold dcost
      rw [(encode_schema_state_effect e reg sch rec k st).1]
    omega
  · simp only [runOp]
    have h1 := encode_id_probe_free e reg sid rec k st i
    have h2 : dcost (encode_record_with_schema_id e reg sid rec k st).2.1 i = dcost st i := by
      unfold dcost
      rw [(encode_id_state_effect e reg sid rec k st).1]
    omega
  · simp only [runOp]
    exact decode_probe_bound e reg m k st i

/-- Across any operation sequence, the total number of probes for an
identifier is bounded by its initial potential. -/
theorem runOps_probe_bound (e : Engine S J R) (reg : Registry S)
    (ops : List (Op S R)) (st : SState S J) (i : Nat) :
    probeCount (runOps e reg ops st).2 i + dcost (runOps e reg ops st).1 i ≤ dcost st i := by
  induction ops generalizing st with
  | nil => simp [runOps, probeCount]
  | cons op ops ih =>
    simp only [runOps, probeCount_append]
    have h1 := runOp_probe_bound e reg op st i
    have h2 := ih (runOp e reg op st).1
    omega

/-! ### C5 -/

/-- C5 counterexample: with a registry whose lookup raises, encoding twice
with the same identifier performs TWO lookup-by-id calls for it — failed
resolutions are retried, so "at most one lookup-by-id per identifier across
any sequence of calls" is false. -/
theorem lookup_repeated_after_failed_resolution :
    lookupCount ((runOps trivEngine regErr
        [Op.encodeWithId 7 1 false, Op.encodeWithId 7 1 false] stEmpty).2) 7 = 2 := rfl

/-- C5 amended: once a Writer Context is cached for an identifier, every
later `encode_record_with_schema_id` for it performs zero registry calls and
leaves the state untouched; once a Decoder Binding is cached, decoder
resolution returns it with zero registry calls and no re-probing; and across
any sequence of operations at most one strategy probe ever occurs per
identifier.  (At most one lookup-by-id holds only per cache and per
successful resolution: failed resolutions retry, as the counterexample
shows.) -/
theorem cached_identifier_zero_registry_calls (e : Engine S J R) (reg : Registry S)
    (schema_id : Nat) :
    (∀ (record : R) (is_key : Bool) (st : SState S J) (w : S),
       st.id_to_writers schema_id = some w →
       encode_record_with_schema_id e reg schema_id record is_key st =
         (encodePayload e schema_id record w, st, [])) ∧
    (∀ (p : ByteStream) (is_key : Bool) (st : SState S J) (d : DecoderFunc S J),
       st.id_to_decoder_func schema_id = some d →
       _get_decoder_func e reg schema_id p is_key st = (.ok (d, p), st, [])) ∧
    (∀ (ops : List (Op S R)) (st : SState S J),
       probeCount (runOps e reg ops st).2 schema_id ≤ 1) := by
  refine ⟨fun record is_key st w hw => ?_, fun p is_key st d hd => ?_, fun ops st => ?_⟩
  · simp only [encode_record_with_schema_id, hw]
  · simp only [_get_decoder_func, hd]
  · have h1 := runOps_probe_bound e reg ops st schema_id
    have h2 := dcost_le_one st schema_id
    omega

/-- C5 amended witness: a cached identifier encodes with an empty trace, and
two decodes of the same message probe identifier 7 at most once. -/
theorem cached_identifier_zero_registry_calls_witness :
    encode_record_with_schema_id trivEngine trivReg 7 42 false stW7 =
      (encodePayload trivEngine 7 42 1, stW7, []) ∧
    probeCount (runOps trivEngine trivReg
        [Op.decode (some [0, 0, 0, 0, 7, 42]) false,
         Op.decode (some [0, 0, 0, 0, 7, 42]) false] stEmpty).2 7 ≤ 1 :=
  ⟨(cached_identifier_zero_registry_calls trivEngine trivReg 7).1 42 false stW7 1 rfl,
   (cached_identifier_zero_registry_calls trivEngine trivReg 7).2.2
     [Op.decode (some [0, 0, 0, 0, 7, 42]) false,
      Op.decode (some [0, 0, 0, 0, 7, 42]) false] stEmpty⟩

/-! ### C1 -/

/-- Parsing the four digit bytes written by `pack_u32_be` recovers the
identifier. -/
theorem be32_u32digits (n : Nat) (h : n < 2 ^ 32) :
    be32 (n / 2 ^ 24 % 256) (n / 2 ^ 16 % 256) (n / 2 ^ 8 % 256) (n % 256) = n := by
  unfold be32
  omega

/-- If the framing checks pass, decoder resolution returns a closure and the
closure decodes the payload, then `decode_message` returns that value. -/
theorem decode_message_resolves_ok (e : Engine S J R) (reg : Registry S)
    (msg : List Nat) (is_key : Bool) (st : SState S J) (sid : Nat)
    (d : DecoderFunc S J) (p : ByteStream) (st2 : SState S J) (tr : List REvent)
    (r : R) (q : Nat)
    (hlen : ¬ msg.length ≤ 5)
    (hmagic : signedByte (msg.getD 0 0) = MAGIC_BYTE)
    (hsid : be32 (msg.getD 1 0) (msg.getD 2 0) (msg.getD 3 0) (msg.getD 4 0) = sid)
    (hgdf : _get_decoder_func e reg sid { data := msg, pos := 5 } is_key st =
      (.ok (d, p), st2, tr))
    (happ : applyDecoder e d p = .ok (r, q)) :
    (decode_message e reg (some msg) is_key st).1 = .ok (some r) := by
  have hm2 : ¬ (signedByte (msg.getD 0 0) ≠ MAGIC_BYTE) := not_not_intro hmagic
  simp only [decode_message, if_neg hlen, if_neg hm2, hsid, hgdf, happ]

/-- An engine for which a record's schema-encoding is empty while the
reference decoder still round-trips it (reading zero bytes yields 99). -/
def emptyEngine : Engine Nat Nat Nat where
  hasFast := false
  toJson := fun s => s
  nsOf := fun _ => "test"
  nameOf := fun _ => "User"
  avroWrite := fun _ _ => .ok []
  schemalessRead := fun _ _ _ _ => .error ()
  datumRead := fun _ _ _ pos => .ok (99, pos)

/-- C1 counterexample: record 99 is valid under schema 3 for `emptyEngine`
(it encodes to the empty payload and the reference decoder reads it back),
the registry maps identifier 7 to schema 3 and the reader schema equals the
writer schema, yet decoding the encoded 5-byte message fails with a framing
error instead of returning the record, because `decode_message` rejects
`len(message) <= 5`. -/
theorem roundtrip_fails_on_empty_payload :
    emptyEngine.avroWrite 3 99 = .ok [] ∧
    emptyEngine.datumRead 3 (some 3) [0, 0, 0, 0, 7] 5 = .ok (99, 5) ∧
    (encode_record_with_schema_id emptyEngine trivReg 7 99 false stReader3).1 =
      .ok [0, 0, 0, 0, 7] ∧
    (decode_message emptyEngine trivReg (some [0, 0, 0, 0, 7]) false
        (encode_record_with_schema_id emptyEngine trivReg 7 99 false stReader3).2.1).1 =
      .error (.generic "message is too small to decode") := ⟨rfl, rfl, rfl, rfl⟩

/-- C1 amended: for any engine and registry, if identifier `schema_id`
(< 2^32) has cached or fetched writer schema `sch`, the applicable reader
schema equals `sch`, no decoder binding is cached yet, and the record is
valid under `sch` for the engines in play (its encoding is a NON-EMPTY
payload `P`, the reference decoder reads `record` back from it, and the
optimized decoder agrees whenever its trial accepts the payload), then
decoding the bytes produced by `encode_record_with_schema_id` yields the
record.  The non-empty proviso is forced by the `len(message) <= 5` check
(see the counterexample). -/
theorem roundtrip_encode_then_decode (e : Engine S J R) (reg : Registry S)
    (schema_id : Nat) (sch : S) (record : R) (is_key : Bool) (st : SState S J)
    (P : List Nat)
    (hid : schema_id < 2 ^ 32)
    (hw : st.id_to_writers schema_id = none ∨ st.id_to_writers schema_id = some sch)
    (hreg : reg.get_by_id schema_id = .found sch)
    (hd : st.id_to_decoder_func schema_id = none)
    (hr : (if is_key then st.reader_key_schema else st.reader_value_schema) = some sch)
    (hP : e.avroWrite sch record = .ok P)
    (hPne : P ≠ [])
    (hSlow : ∃ q, e.datumRead sch (some sch) (0 :: u32digits schema_id ++ P) 5 =
       .ok (record, q))
    (hFastRead : ∀ t,
       e.schemalessRead (e.toJson sch) none (0 :: u32digits schema_id ++ P) 5 = .ok t →
       ∃ q, e.schemalessRead (e.toJson sch) (some (e.toJson sch))
         (0 :: u32digits schema_id ++ P) 5 = .ok (record, q)) :
    (encode_record_with_schema_id e reg schema_id record is_key st).1 =
      .ok (0 :: u32digits schema_id ++ P) ∧
    (decode_message e reg (some (0 :: u32digits schema_id ++ P)) is_key
        (encode_record_with_schema_id e reg schema_id record is_key st).2.1).1 =
      .ok (some record) := by
  have henc : (encode_record_with_schema_id e reg schema_id record is_key st).1 =
      .ok (0 :: u32digits schema_id ++ P) ∧
      (encode_record_with_schema_id e reg schema_id record is_key st).2.1.id_to_decoder_func
        schema_id = none ∧
      ((if is_key then
          (encode_record_with_schema_id e reg schema_id record is_key st).2.1.reader_key_schema
        else
          (encode_record_with_schema_id e reg schema_id record is_key st).2.1.reader_value_schema)
        = some sch) := by
    rcases hw with hw | hw
    · simp only [encode_record_with_schema_id, hw, hreg, encodePayload, pack_u32_be,
        if_pos hid, hP]
      exact ⟨by trivial, hd, hr⟩
    · simp only [encode_record_with_schema_id, hw, encodePayload, pack_u32_be,
        if_pos hid, hP]
      exact ⟨by trivial, hd, hr⟩
  refine ⟨henc.1, ?_⟩
  have hd2 := henc.2.1
  have hr2 := henc.2.2
  have hp : 0 < P.length := List.length_pos.mpr hPne
  have hlen : ¬ (0 :: u32digits schema_id ++ P).length ≤ 5 := by
    have hlenEq : (0 :: u32digits schema_id ++ P).length = P.length + 5 := by
      simp [u32digits]
    omega
  have h0 : (0 :: u32digits schema_id ++ P).getD 0 0 = 0 := by
    simp
  have hmagic : signedByte ((0 :: u32digits schema_id ++ P).getD 0 0) = MAGIC_BYTE := by
    rw [h0]
    decide
  have hsid : be32 ((0 :: u32digits schema_id ++ P).getD 1 0)
      ((0 :: u32digits schema_id ++ P).getD 2 0)
      ((0 :: u32digits schema_id ++ P).getD 3 0)
      ((0 :: u32digits schema_id ++ P).getD 4 0) = schema_id := by
    have h1 : (0 :: u32digits schema_id ++ P).getD 1 0 = schema_id / 2 ^ 24 % 256 := by
      simp [u32digits]
    have h2 : (0 :: u32digits schema_id ++ P).getD 2 0 = schema_id / 2 ^ 16 % 256 := by
      simp [u32digits]
    have h3 : (0 :: u32digits schema_id ++ P).getD 3 0 = schema_id / 2 ^ 8 % 256 := by
      simp [u32digits]
    have h4 : (0 :: u32digits schema_id ++ P).getD 4 0 = schema_id % 256 := by
      simp [u32digits]
    rw [h1, h2, h3, h4]
    exact be32_u32digits schema_id hid
  by_cases hf : e.hasFast = true
  · rcases htr : e.schemalessRead (e.toJson sch) none (0 :: u32digits schema_id ++ P) 5
        with u | t
    · have hgdf : _get_decoder_func e reg schema_id
          { data := 0 :: u32digits schema_id ++ P, pos := 5 } is_key
          (encode_record_with_schema_id e reg schema_id record is_key st).2.1 =
          (.ok (.slow sch (some sch),
              { data := 0 :: u32digits schema_id ++ P, pos := 5 }),
           { (encode_record_with_schema_id e reg schema_id record is_key st).2.1 with
               id_to_decoder_func := fun i =>
                 if i = schema_id then some (.slow sch (some sch))
                 else (encode_record_with_schema_id e reg schema_id record
                   is_key st).2.1.id_to_decoder_func i },
           [.lookup schema_id, .probe schema_id]) := by
        simp only [_get_decoder_func, hd2, hreg, hf, hr2, htr, bindSlow, if_true]
      rcases hSlow with ⟨q, hq⟩
      exact decode_message_resolves_ok e reg (0 :: u32digits schema_id ++ P) is_key
        (encode_record_with_schema_id e reg schema_id record is_key st).2.1 schema_id
        _ _ _ _ record q hlen hmagic hsid hgdf hq
    · have hgdf : _get_decoder_func e reg schema_id
          { data := 0 :: u32digits schema_id ++ P, pos := 5 } is_key
          (encode_record_with_schema_id e reg schema_id record is_key st).2.1 =
          (.ok (.fast (e.toJson sch) (e.toJson sch),
              { data := 0 :: u32digits schema_id ++ P, pos := 5 }),
           { (encode_record_with_schema_id e reg schema_id record is_key st).2.1 with
               id_to_decoder_func := fun i =>
                 if i = schema_id then some (.fast (e.toJson sch) (e.toJson sch))
                 else (encode_record_with_schema_id e reg schema_id record
                   is_key st).2.1.id_to_decoder_func i },
           [.lookup schema_id, .probe schema_id]) := by
        simp only [_get_decoder_func, hd2, hreg, hf, hr2, htr, if_true]
      rcases hFastRead t htr with ⟨q, hq⟩
      exact decode_message_resolves_ok e reg (0 :: u32digits schema_id ++ P) is_key
        (encode_record_with_schema_id e reg schema_id record is_key st).2.1 schema_id
        _ _ _ _ record q hlen hmagic hsid hgdf hq
  · have hgdf : _get_decoder_func e reg schema_id
        { data := 0 :: u32digits schema_id ++ P, pos := 5 } is_key
        (encode_record_with_schema_id e reg schema_id record is_key st).2.1 =
        (.ok (.slow sch (some sch),
            { data := 0 :: u32digits schema_id ++ P, pos := 5 }),
         { (encode_record_with_schema_id e reg schema_id record is_key st).2.1 with
             id_to_decoder_func := fun i =>
               if i = schema_id then some (.slow sch (some sch))
               else (encode_record_with_schema_id e reg schema_id record
                 is_key st).2.1.id_to_decoder_func i },
         [.lookup schema_id]) := by
      simp only [_get_decoder_func, hd2, hreg, if_neg hf, hr2, bindSlow]
    rcases hSlow with ⟨q, hq⟩
    exact decode_message_resolves_ok e reg (0 :: u32digits schema_id ++ P) is_key
      (encode_record_with_schema_id e reg schema_id record is_key st).2.1 schema_id
      _ _ _ _ record q hlen hmagic hsid hgdf hq

/-- C1 amended witness: identifier 7, schema 3, record 42, reader schema 3;
the encoded message decodes back to 42. -/
theorem roundtrip_encode_then_decode_witness :
    (encode_record_with_schema_id trivEngine trivReg 7 42 false stReader3).1 =
      .ok (0 :: u32digits 7 ++ [42 % 256]) ∧
    (decode_message trivEngine trivReg (some (0 :: u32digits 7 ++ [42 % 256])) false
        (encode_record_with_schema_id trivEngine trivReg 7 42 false stReader3).2.1).1 =
      .ok (some 42) :=
  roundtrip_encode_then_decode trivEngine trivReg 7 3 42 false stReader3 [42 % 256]
    (by decide) (Or.inl rfl) rfl rfl rfl rfl (by decide) ⟨6, rfl⟩
    (fun t h => by simp [trivEngine] at h)
